import Mathlib

/-!
Verification of the retrieval-augmented wealth-management agent
(src/agent.py and src/app.py) via a shallow embedding in Lean 4.

External backends (the reasoning model, the retrieval backend, the Bedrock
clients) are modelled as explicit parameters carrying their result or their
raised exception (`Except String _`); everything the repository code itself
computes is translated directly from the Python source.
-/

namespace WealthAgent

/-- A Python metadata value as seen by `format_sources` (agent.py:112,117):
either an integer or a string.  The `dict.get` default, the empty string, is
represented by `strVal ""`. -/
inductive PyVal where
  | intVal : Int → PyVal
  | strVal : String → PyVal
deriving DecidableEq, Repr

/-- Python truthiness for a metadata value: `if page_num:` / `if s3_uri`. -/
def PyVal.truthy : PyVal → Bool
  | .intVal n => n != 0
  | .strVal s => s != ""

/-- Digits of a decimal literal folded to a value; `none` when a non-digit
appears.  Helper for the embedding of Python `int(...)`. -/
def digitsVal (cs : List Char) : Option Nat :=
  cs.foldl
    (fun acc c =>
      match acc with
      | none => none
      | some a => if c.isDigit then some (a * 10 + (c.toNat - 48)) else none)
    (some 0)

/-- Embedding of Python `int(s)` on a string: an optional sign followed by at
least one decimal digit parses; anything else raises `ValueError`
(result `none`). -/
def parsePyInt (cs : List Char) : Option Int :=
  match cs with
  | '-' :: rest => if rest = [] then none else (digitsVal rest).map (fun n => -(n : Int))
  | '+' :: rest => if rest = [] then none else (digitsVal rest).map (fun n => (n : Int))
  | _ => if cs = [] then none else (digitsVal cs).map (fun n => (n : Int))

/-- Embedding of Python `int(v)` on a metadata value (agent.py:120):
integers convert directly, strings must parse as a decimal integer, and a
malformed string raises `ValueError` (modelled as `Except.error`). -/
def pyInt (v : PyVal) : Except String Int :=
  match v with
  | .intVal n => .ok n
  | .strVal s =>
      match parsePyInt s.toList with
      | some n => .ok n
      | none => .error ("invalid literal for int() with base 10: " ++ s)

/-- A retrieved source node as consumed by `format_sources` (agent.py:110-117).
`sourceUri` is the value the code reads from the node metadata under
`sourceMetadata` and `x-amz-bedrock-kb-source-uri`, with the empty string as
the `dict.get` default (so an absent URI is the empty string), and `pageVal`
is the value read under `x-amz-bedrock-kb-document-page-number` with the same
default (so an absent page number is `strVal ""`). -/
structure Node where
  sourceUri : String
  pageVal : PyVal
deriving DecidableEq, Repr

/-- Python `str.split(sep)` for a one-character separator, on character
lists: splitting the empty string gives `[[]]`, and each separator
occurrence starts a new group. -/
def splitOnChar (sep : Char) : List Char → List (List Char)
  | [] => [[]]
  | c :: rest =>
      let r := splitOnChar sep rest
      if c = sep then
        [] :: r
      else
        match r with
        | [] => [[c]]
        | g :: gs => (c :: g) :: gs

/-- The filename extracted from an S3 URI: the last group of the URI split
on the slash character, `s3_uri.split("/")[-1]` in the source
(agent.py:116). -/
def uriFilename (uri : String) : String :=
  String.mk ((splitOnChar '/' uri.toList).getLastD [])

/-- The citation label built for one node (agent.py:119-122), without the
leading pictogram: the filename, plus `" (Page N)"` when the page metadata
value is truthy, where `N` is `int(page_num)` (which can raise). -/
def citationLabel (n : Node) : Except String String :=
  let filename := uriFilename n.sourceUri
  if n.pageVal.truthy then
    match pyInt n.pageVal with
    | .error e => .error e
    | .ok k => .ok (filename ++ " (Page " ++ toString k ++ ")")
  else
    .ok filename

/-- The loop of `format_sources` (agent.py:110-124): walk the nodes in order
carrying the accumulated citations and the `seen_sources` set; a node whose
source URI is non-empty and unseen contributes one citation and marks its URI
seen; every other node is skipped.  Each produced citation is recorded as the
pair of the source URI it derives from and its label. -/
def citationsGo : List Node → List (String × String) → List String →
    Except String (List (String × String))
  | [], sources, _ => .ok sources
  | n :: rest, sources, seen =>
      let uri := n.sourceUri
      if uri ≠ "" ∧ uri ∉ seen then
        match citationLabel n with
        | .error e => .error e
        | .ok label => citationsGo rest (sources ++ [(uri, label)]) (seen ++ [uri])
      else
        citationsGo rest sources seen

/-- The deduplicated citation list derived from a node sequence:
the loop of `format_sources` started with empty accumulators. -/
def citations (nodes : List Node) : Except String (List (String × String)) :=
  citationsGo nodes [] []

/-- One rendered source line (agent.py:120,122): the pictogram prefix plus
the citation label. -/
def sourceLine (label : String) : String :=
  "📄 " ++ label

/-- Embedding of `format_sources` (agent.py:102-128): empty input returns
`""`; otherwise the citation loop runs, and a non-empty citation list is
rendered under a `**Sources:**` header, one line per citation.  An exception
raised inside the loop (by `int(page_num)`) propagates as `Except.error`. -/
def format_sources (nodes : List Node) : Except String String :=
  if nodes = [] then
    .ok ""
  else
    match citations nodes with
    | .error e => .error e
    | .ok sources =>
        if sources = [] then
          .ok ""
        else
          .ok ("\n\n**Sources:**\n" ++
            String.intercalate "\n" (sources.map (fun p => sourceLine p.2)))

/-- The apology string returned by the `except` branch of
`get_agent_response` (agent.py:153-154). -/
def apologyMsg (e : String) : String :=
  "I apologize, but I encountered an error: " ++ e

/-- Embedding of `get_agent_response` (agent.py:131-154).  The two external
calls of the turn are parameters carrying their outcome: `agentRun` is the
result of `await agent.run(...)` and `engineResp` the result of
`query_engine.query(message)`, where `Except.error e` models a raised
exception with text `e` and the inner `Option` models the
`hasattr` check for the `source_nodes` attribute.  Every exception raised in
the `try` block, including one raised by `format_sources`, is caught and
turned into the apology string. -/
def get_agent_response (agentRun : Except String String)
    (engineResp : Except String (Option (List Node))) : String :=
  match agentRun with
  | .error e => apologyMsg e
  | .ok resp =>
      match engineResp with
      | .error e => apologyMsg e
      | .ok srcNodes? =>
          match srcNodes? with
          | none => resp ++ ""
          | some nodes =>
              match format_sources nodes with
              | .error e => apologyMsg e
              | .ok sourcesText => resp ++ sourcesText

/-- Embedding of the query-engine composition (agent.py:41-44):
`RetrieverQueryEngine.from_args(retriever=retriever, node_postprocessors=[reranker])`
passes the retrieved nodes through the reranker postprocessor with no
exception handling of its own, so a reranker failure propagates out of the
query. -/
def query_engine_nodes (retrieved : List Node)
    (rerank : List Node → Except String (List Node)) : Except String (List Node) :=
  rerank retrieved

/-- The progress line yielded by the polling loop of `run_sync_flow`
(app.py:44). -/
def progressMsg (jobId status : String) : String :=
  "⏳ Job " ++ jobId ++ ": " ++ status ++ "..."

/-- The error line yielded when the trigger returns no job id (app.py:38). -/
def triggerErrorMsg (err : String) : String :=
  "❌ Error: " ++ err

/-- The final line yielded after the loop exits (app.py:47-50). -/
def finalMsg (status : String) : String :=
  if status = "COMPLETE" then
    "✅ Sync Successful! The AI is now updated with the latest documents."
  else
    "❌ Sync Ended with status: " ++ status

/-- The loop guard of `run_sync_flow` (app.py:42):
`current_status not in ["COMPLETE", "FAILED", "STOPPED"]` negated. -/
def isTerminal (s : String) : Bool :=
  s == "COMPLETE" || s == "FAILED" || s == "STOPPED"

/-- The outcome of one run of the sync flow: the strings yielded to the
admin view, in order, and the number of `get_sync_status` calls made. -/
structure SyncRun where
  yields : List String
  polls : Nat
deriving DecidableEq, Repr

/-- The `while` loop of `run_sync_flow` (app.py:42-45), driven by the
scripted sequence `polls` of statuses that successive `get_sync_status`
calls return (`get_sync_status` itself never raises: it catches any
exception and returns its text, agent.py:90-100).  Returns the progress
lines yielded, the number of polls made, and the status that ended the
loop; `none` models the loop still running when the script is exhausted. -/
def syncLoop (jobId : String) : String → List String →
    Option (List String × Nat × String)
  | cur, polls =>
    if isTerminal cur then
      some ([], 0, cur)
    else
      match polls with
      | [] => none
      | s :: rest =>
          match syncLoop jobId s rest with
          | none => none
          | some (ys, n, fin) => some (progressMsg jobId s :: ys, n + 1, fin)

/-- Embedding of `run_sync_flow` (app.py:35-50).  `trig` is the pair returned
by `trigger_sync` (agent.py:79-88): either `(some jobId, status)` on success
or `(none, errText)` when the trigger raised.  `polls` is the scripted
sequence of statuses returned by successive `get_sync_status` calls.  On a
failed trigger, one error line is yielded and no poll happens; otherwise the
loop runs from the initial status and the final summary line is yielded
after it exits. -/
def run_sync_flow (trig : Option String × String) (polls : List String) :
    Option SyncRun :=
  match trig with
  | (none, err) => some ⟨[triggerErrorMsg err], 0⟩
  | (some jobId, st0) =>
      match syncLoop jobId st0 polls with
      | none => none
      | some (ys, n, fin) => some ⟨ys ++ [finalMsg fin], n⟩

/-- A conversation turn role (`"user"` / `"assistant"` in the Gradio
messages format). -/
inductive Role where
  | user
  | assistant
deriving DecidableEq, Repr

/-- One chat turn: `{"role": ..., "content": ...}` (app.py:58,71,78). -/
structure Turn where
  role : Role
  content : String
deriving DecidableEq, Repr

/-- The loading placeholder appended before the agent is invoked
(app.py:71). -/
def loadingTurn : Turn :=
  ⟨Role.assistant, "🤔 Searching knowledge base..."⟩

/-- Python list slicing `l[:-2]`: all elements but the last two
(app.py:75). -/
def pySliceDropLastTwo {α : Type} (l : List α) : List α :=
  l.take (l.length - 2)

/-- The arguments `get_bot_response` passes to `get_agent_response`. -/
structure AgentCall where
  message : String
  history : List Turn
deriving DecidableEq, Repr

/-- Embedding of the part of `get_bot_response` (app.py:62-75) that decides
the call to the agent: when the history is empty or does not end with a user
turn, no agent call is made; otherwise the in-flight user message is the last
content, the loading placeholder is appended, and the agent is called with
that message and `chat_history[:-2]` (the history minus the user turn and the
placeholder). -/
def get_bot_response_agent_call (hist : List Turn) : Option AgentCall :=
  match hist.getLast? with
  | none => none
  | some t =>
      if t.role = Role.user then
        some ⟨t.content, pySliceDropLastTwo (hist ++ [loadingTurn])⟩
      else
        none

/-- Python whitespace characters recognised by `str.strip()` with no
argument — the characters for which CPython `str.isspace()` holds: tab
through carriage return (0x09-0x0d), the information separators
(0x1c-0x1f), space, next line (0x85), no-break space (0xa0), ogham space
mark (0x1680), the Unicode space separators 0x2000-0x200a, line and
paragraph separator (0x2028, 0x2029), narrow no-break space (0x202f),
medium mathematical space (0x205f) and ideographic space (0x3000). -/
def isPySpace (c : Char) : Bool :=
  (0x09 ≤ c.toNat && c.toNat ≤ 0x0d) ||
  (0x1c ≤ c.toNat && c.toNat ≤ 0x1f) ||
  c.toNat = 0x20 || c.toNat = 0x85 || c.toNat = 0xa0 ||
  c.toNat = 0x1680 ||
  (0x2000 ≤ c.toNat && c.toNat ≤ 0x200a) ||
  c.toNat = 0x2028 || c.toNat = 0x2029 || c.toNat = 0x202f ||
  c.toNat = 0x205f || c.toNat = 0x3000

/-- Embedding of Python `s.strip()` on the character list of `s`: leading and
trailing whitespace removed. -/
def pyStripChars (cs : List Char) : List Char :=
  ((cs.dropWhile isPySpace).reverse.dropWhile isPySpace).reverse

/-- Embedding of `add_user_message` (app.py:53-59): a message that strips to
empty leaves the history unchanged and returns the message itself (the input
box keeps its text); otherwise one user turn holding the message is appended
and the empty string is returned (clearing the input box). -/
def add_user_message (message : String) (chatHistory : List Turn) :
    List Turn × String :=
  if pyStripChars message.toList = [] then
    (chatHistory, message)
  else
    (chatHistory ++ [⟨Role.user, message⟩], "")

/-! ## Helper lemmas -/

/-- Unfolding equation for `syncLoop` that also applies when the scripted
poll list is not in constructor form. -/
theorem syncLoop_unfold (j cur : String) (polls : List String) :
    syncLoop j cur polls =
      if isTerminal cur then some ([], 0, cur)
      else
        match polls with
        | [] => none
        | s :: rest =>
            match syncLoop j s rest with
            | none => none
            | some (ys, n, fin) => some (progressMsg j s :: ys, n + 1, fin) := by
  cases polls <;> rfl

/-- One step of `syncLoop` from a non-terminal status: the next scripted
status is polled and yielded, and the loop continues. -/
theorem syncLoop_cons (j cur s : String) (rest : List String)
    (h : isTerminal cur = false) :
    syncLoop j cur (s :: rest) =
      match syncLoop j s rest with
      | none => none
      | some (ys, n, fin) => some (progressMsg j s :: ys, n + 1, fin) := by
  rw [syncLoop_unfold, if_neg (by simp [h])]

/-- The loop of `format_sources` keeps the first components of its citation
pairs free of duplicates: the accumulated source URIs are all recorded in
`seen`, and a URI is only appended when it is not in `seen`. -/
theorem citationsGo_fst_nodup (nodes : List Node) :
    ∀ (sources : List (String × String)) (seen : List String),
      (sources.map Prod.fst).Nodup →
      (∀ p ∈ sources, p.1 ∈ seen) →
      ∀ pairs, citationsGo nodes sources seen = .ok pairs →
        (pairs.map Prod.fst).Nodup := by
  induction nodes with
  | nil =>
      intro sources seen h1 _ pairs heq
      simp only [citationsGo] at heq
      cases heq
      exact h1
  | cons n rest ih =>
      intro sources seen h1 h2 pairs heq
      simp only [citationsGo] at heq
      by_cases hc : n.sourceUri ≠ "" ∧ n.sourceUri ∉ seen
      · rw [if_pos hc] at heq
        cases hl : citationLabel n with
        | error e => rw [hl] at heq; cases heq
        | ok label =>
            rw [hl] at heq
            refine ih _ _ ?_ ?_ _ heq
            · have hnotin : n.sourceUri ∉ sources.map Prod.fst := by
                intro hmem
                rcases List.mem_map.mp hmem with ⟨p, hp, hfst⟩
                exact hc.2 (hfst ▸ h2 p hp)
              simp only [List.map_append, List.map_cons, List.map_nil]
              rw [List.nodup_append]
              exact ⟨h1, List.nodup_singleton _, by
                intro a ha hb
                simp only [List.mem_singleton] at hb
                exact hnotin (hb ▸ ha)⟩
            · intro p hp
              rcases List.mem_append.mp hp with hold | hnew
              · exact List.mem_append_left _ (h2 p hold)
              · simp only [List.mem_singleton] at hnew
                subst hnew
                exact List.mem_append_right _ (List.mem_singleton.mpr rfl)
      · rw [if_neg hc] at heq
        exact ih _ _ h1 h2 _ heq

/-! ## Claims -/

/-- Claim C1: for every node sequence given to `format_sources`, the produced
citation list never contains two citations derived from the same source
URI — the first components of the citation pairs are pairwise distinct,
because a non-empty URI is marked seen when it first produces a citation and
every later node carrying it is skipped. -/
theorem citations_sourceUri_nodup (nodes : List Node)
    (pairs : List (String × String)) (h : citations nodes = .ok pairs) :
    (pairs.map Prod.fst).Nodup :=
  citationsGo_fst_nodup nodes [] [] List.nodup_nil (by intro p hp; cases hp) pairs h

/-- Witness for C1 at a concrete input with a duplicated source URI. -/
theorem citations_sourceUri_nodup_witness :
    citations [⟨"s3://b/a.pdf", .intVal 2⟩, ⟨"s3://b/a.pdf", .intVal 5⟩,
        ⟨"s3://b/c.pdf", .strVal ""⟩] =
      .ok [("s3://b/a.pdf", "a.pdf (Page 2)"), ("s3://b/c.pdf", "c.pdf")] ∧
    (([("s3://b/a.pdf", "a.pdf (Page 2)"), ("s3://b/c.pdf", "c.pdf")] :
        List (String × String)).map Prod.fst).Nodup :=
  ⟨rfl, citations_sourceUri_nodup
    [⟨"s3://b/a.pdf", .intVal 2⟩, ⟨"s3://b/a.pdf", .intVal 5⟩,
      ⟨"s3://b/c.pdf", .strVal ""⟩]
    [("s3://b/a.pdf", "a.pdf (Page 2)"), ("s3://b/c.pdf", "c.pdf")] rfl⟩

/-- Claim C2: on the passage sequence with URIs `s3://b/a.pdf` (page 2),
`s3://b/a.pdf` (page 5) and `s3://b/c.pdf` (no page), the extractor produces
exactly the labels `a.pdf (Page 2)` and `c.pdf`, in that order: the second
`a.pdf` passage is deduplicated and the first page number kept, and the
rendered source block lists exactly these two labels. -/
theorem citations_end_to_end_scenario :
    citations [⟨"s3://b/a.pdf", .intVal 2⟩, ⟨"s3://b/a.pdf", .intVal 5⟩,
        ⟨"s3://b/c.pdf", .strVal ""⟩] =
      .ok [("s3://b/a.pdf", "a.pdf (Page 2)"), ("s3://b/c.pdf", "c.pdf")] ∧
    format_sources [⟨"s3://b/a.pdf", .intVal 2⟩, ⟨"s3://b/a.pdf", .intVal 5⟩,
        ⟨"s3://b/c.pdf", .strVal ""⟩] =
      .ok ("\n\n**Sources:**\n" ++ sourceLine "a.pdf (Page 2)" ++ "\n" ++
        sourceLine "c.pdf") :=
  ⟨rfl, rfl⟩

/-- Claim C6 fails on the code: `format_sources` is not total.  On a single passage whose
page-number metadata value is the malformed string `"two"`, the call
`int(page_num)` raises `ValueError`, which propagates out of
`format_sources`; the claim (and the spec) say the function must never
fail. -/
theorem format_sources_raises_on_malformed_page :
    format_sources [⟨"s3://b/a.pdf", .strVal "two"⟩] =
      .error "invalid literal for int() with base 10: two" :=
  rfl

/-- Claim C3: with a successful trigger reporting `STARTING` and the
scripted poll results `[STARTING, IN_PROGRESS, IN_PROGRESS, COMPLETE]`, the
monitor yields exactly one progress event per polled status (4 events),
followed by the terminal summary line, and makes exactly 4 poll calls: after
observing `COMPLETE` it halts and never polls again, whatever further
statuses the script would have returned. -/
theorem run_sync_flow_scripted_complete (extra : List String) :
    run_sync_flow (some "J1", "STARTING")
        (["STARTING", "IN_PROGRESS", "IN_PROGRESS", "COMPLETE"] ++ extra) =
      some ⟨[progressMsg "J1" "STARTING", progressMsg "J1" "IN_PROGRESS",
        progressMsg "J1" "IN_PROGRESS", progressMsg "J1" "COMPLETE",
        finalMsg "COMPLETE"], 4⟩ := by
  simp [run_sync_flow, syncLoop_unfold, isTerminal]

/-- Counterexample to claim C7: when a poll fails internally,
`get_sync_status` returns the exception text as the status, the loop yields
it as a progress line — but the loop does not halt there: with the script
`[Boom, COMPLETE]` a second poll is made after the failing one (2 polls, not
1), so the loop keeps polling until a later poll returns a terminal
status. -/
theorem run_sync_flow_poll_failure_keeps_polling :
    run_sync_flow (some "J1", "STARTING") ["Boom", "COMPLETE"] =
      some ⟨[progressMsg "J1" "Boom", progressMsg "J1" "COMPLETE",
        finalMsg "COMPLETE"], 2⟩ ∧
    (run_sync_flow (some "J1", "STARTING") ["Boom", "COMPLETE"]).map
        SyncRun.polls ≠ some 1 := by
  refine ⟨rfl, ?_⟩
  intro h
  rw [show run_sync_flow (some "J1", "STARTING") ["Boom", "COMPLETE"] =
      some ⟨[progressMsg "J1" "Boom", progressMsg "J1" "COMPLETE",
        finalMsg "COMPLETE"], 2⟩ from rfl] at h
  simp at h

/-- Claim C7 as amended: an internal poll failure is surfaced to the admin
view as explicit status text (the exception text appears in a progress
line), but the loop does not halt on it — it continues exactly as for any
non-terminal status, polling until a later poll returns `COMPLETE`, `FAILED`
or `STOPPED`. -/
theorem run_sync_flow_poll_failure_surfaced (j s0 e fin : String)
    (rest ys : List String) (n : Nat)
    (h0 : isTerminal s0 = false) (_he : isTerminal e = false)
    (hrest : syncLoop j e rest = some (ys, n, fin)) :
    run_sync_flow (some j, s0) (e :: rest) =
      some ⟨progressMsg j e :: (ys ++ [finalMsg fin]), n + 1⟩ := by
  have h1 : syncLoop j s0 (e :: rest) =
      some (progressMsg j e :: ys, n + 1, fin) := by
    rw [syncLoop_cons j s0 e rest h0, hrest]
  simp [run_sync_flow, h1]

/-- Witness for the amended C7 at a concrete failing poll. -/
theorem run_sync_flow_poll_failure_surfaced_witness :
    run_sync_flow (some "J1", "STARTING") ["Boom", "COMPLETE"] =
      some ⟨progressMsg "J1" "Boom" ::
        ([progressMsg "J1" "COMPLETE"] ++ [finalMsg "COMPLETE"]), 1 + 1⟩ :=
  run_sync_flow_poll_failure_surfaced "J1" "STARTING" "Boom" "COMPLETE"
    ["COMPLETE"] [progressMsg "J1" "COMPLETE"] 1 rfl rfl rfl

/-- Claim C8: when the trigger fails (`trigger_sync` returns no job id and
the exception text), the monitor yields exactly one error event containing
the error detail and makes zero poll calls, for every poll script. -/
theorem run_sync_flow_trigger_failure (err : String) (polls : List String) :
    run_sync_flow (none, err) polls = some ⟨[triggerErrorMsg err], 0⟩ :=
  rfl

/-- Claim C4: `get_agent_response` never propagates an exception.  Whichever
step of the turn raises — the reasoning backend, the citation query, or
`format_sources` on the returned nodes — the function returns the apology
string with the error detail embedded. -/
theorem get_agent_response_catches (a : Except String String)
    (q : Except String (Option (List Node))) :
    (∀ e, a = .error e → get_agent_response a q = apologyMsg e) ∧
    (∀ r e, a = .ok r → q = .error e → get_agent_response a q = apologyMsg e) ∧
    (∀ r nodes e, a = .ok r → q = .ok (some nodes) →
      format_sources nodes = .error e →
      get_agent_response a q = apologyMsg e) := by
  refine ⟨fun e he => ?_, fun r e ha hq => ?_, fun r nodes e ha hq hf => ?_⟩ <;>
    subst_vars <;> simp [get_agent_response, *]

/-- Witness for C4: a reasoning backend that raises `BackendUnavailable`
yields the apology string. -/
theorem get_agent_response_catches_witness :
    get_agent_response (.error "BackendUnavailable") (.ok none) =
      apologyMsg "BackendUnavailable" :=
  (get_agent_response_catches (.error "BackendUnavailable") (.ok none)).1
    "BackendUnavailable" rfl

/-- Counterexample to claim C5: the query-engine composition has no rerank
fallback.  With four retrieved nodes and a reranker that raises
`BackendUnavailable`, the query returns that error — not the top-3 nodes in
retrieval order. -/
theorem query_engine_rerank_failure_cex :
    query_engine_nodes
        [⟨"s3://b/a.pdf", .intVal 1⟩, ⟨"s3://b/b.pdf", .intVal 1⟩,
          ⟨"s3://b/c.pdf", .intVal 1⟩, ⟨"s3://b/d.pdf", .intVal 1⟩]
        (fun _ => .error "BackendUnavailable") =
      .error "BackendUnavailable" ∧
    query_engine_nodes
        [⟨"s3://b/a.pdf", .intVal 1⟩, ⟨"s3://b/b.pdf", .intVal 1⟩,
          ⟨"s3://b/c.pdf", .intVal 1⟩, ⟨"s3://b/d.pdf", .intVal 1⟩]
        (fun _ => .error "BackendUnavailable") ≠
      .ok (List.take 3
        [⟨"s3://b/a.pdf", .intVal 1⟩, ⟨"s3://b/b.pdf", .intVal 1⟩,
          ⟨"s3://b/c.pdf", .intVal 1⟩, ⟨"s3://b/d.pdf", .intVal 1⟩]) := by
  refine ⟨rfl, ?_⟩
  intro h
  simp [query_engine_nodes] at h

/-- Claim C5 as amended: a reranker failure propagates out of the query
pipeline unchanged (there is no fallback to retrieval order), and is only
recovered one level up, where `get_agent_response` catches it and returns
the apology string instead of passages. -/
theorem query_engine_rerank_error_propagates (retrieved : List Node)
    (rerank : List Node → Except String (List Node)) (e ans : String)
    (h : rerank retrieved = .error e) :
    query_engine_nodes retrieved rerank = .error e ∧
    get_agent_response (.ok ans)
        ((query_engine_nodes retrieved rerank).map some) = apologyMsg e := by
  constructor
  · simpa [query_engine_nodes] using h
  · simp [query_engine_nodes, h, get_agent_response, Except.map]

/-- Witness for the amended C5 at a concrete failing reranker. -/
theorem query_engine_rerank_error_propagates_witness :
    query_engine_nodes [⟨"s3://b/a.pdf", .intVal 1⟩]
        (fun _ => .error "Boom") = .error "Boom" ∧
    get_agent_response (.ok "Answer")
        ((query_engine_nodes [⟨"s3://b/a.pdf", .intVal 1⟩]
          (fun _ => .error "Boom")).map some) = apologyMsg "Boom" :=
  query_engine_rerank_error_propagates [⟨"s3://b/a.pdf", .intVal 1⟩]
    (fun _ => .error "Boom") "Boom" "Answer" rfl

/-- Claim C9: the history handed to the reasoning loop never includes the
in-flight user message.  For every prior history and user message, the chat
handler — having appended the user turn and the loading placeholder — calls
the agent with the message itself and exactly the prior turns. -/
theorem get_bot_response_history_excludes_inflight (prior : List Turn)
    (u : String) :
    get_bot_response_agent_call (prior ++ [⟨Role.user, u⟩]) =
      some ⟨u, prior⟩ := by
  have h1 : (prior ++ [(⟨Role.user, u⟩ : Turn)]).getLast? =
      some ⟨Role.user, u⟩ := List.getLast?_concat _
  simp only [get_bot_response_agent_call, h1, pySliceDropLastTwo]
  have h2 : (prior ++ ([(⟨Role.user, u⟩ : Turn)] ++ [loadingTurn])).length -
      2 = prior.length := by
    simp [List.length_append]
  rw [List.append_assoc, h2, List.take_left]
  simp

/-- Every element surviving `dropWhile p` satisfies `p` exactly when every
element of the whole list does: the dropped prefix satisfies `p` by
construction. -/
theorem dropWhile_forall_iff {α : Type} (p : α → Bool) (l : List α) :
    (∀ x ∈ l.dropWhile p, p x) ↔ (∀ x ∈ l, p x) := by
  constructor
  · intro h x hx
    rw [← List.takeWhile_append_dropWhile p l] at hx
    rcases List.mem_append.mp hx with h1 | h2
    · exact List.mem_takeWhile_imp h1
    · exact h x h2
  · intro h x hx
    exact h x ((List.dropWhile_sublist p).mem hx)

/-- Python `s.strip()` returns the empty string exactly when every character
of `s` is whitespace. -/
theorem pyStripChars_eq_nil_iff (cs : List Char) :
    pyStripChars cs = [] ↔ ∀ c ∈ cs, isPySpace c := by
  unfold pyStripChars
  rw [List.reverse_eq_nil_iff, List.dropWhile_eq_nil_iff]
  constructor
  · intro h c hc
    refine (dropWhile_forall_iff isPySpace cs).mp ?_ c hc
    intro x hx
    exact h x (List.mem_reverse.mpr hx)
  · intro h x hx
    exact h x ((List.dropWhile_sublist isPySpace).mem (List.mem_reverse.mp hx))

/-- Claim C10: `add_user_message` on a message that is empty or all
whitespace returns the history unchanged together with the message itself
(the input box keeps its text); on a message with any non-whitespace
character it appends exactly one user turn holding the message and returns
the empty string (clearing the input box). -/
theorem add_user_message_spec (message : String) (hist : List Turn) :
    ((∀ c ∈ message.toList, isPySpace c) →
      add_user_message message hist = (hist, message)) ∧
    (¬ (∀ c ∈ message.toList, isPySpace c) →
      add_user_message message hist =
        (hist ++ [⟨Role.user, message⟩], "")) := by
  constructor
  · intro h
    unfold add_user_message
    rw [if_pos ((pyStripChars_eq_nil_iff _).mpr h)]
  · intro h
    unfold add_user_message
    rw [if_neg (fun hh => h ((pyStripChars_eq_nil_iff _).mp hh))]

/-- Witness for C10 at a whitespace-only and a non-blank message. -/
theorem add_user_message_spec_witness :
    add_user_message "  " [] = ([], "  ") ∧
    add_user_message "hello" [] = ([⟨Role.user, "hello"⟩], "") :=
  ⟨(add_user_message_spec "  " []).1 (by decide),
   (add_user_message_spec "hello" []).2 (by decide)⟩

end WealthAgent
